import Mathlib

/-!
Verification of the client-facing transport layer of
`src/game/Server/WorldSocket.cpp` (Eluna-CMaNGOS-Cata): outbound header
encoding (`ServerPktHeader`), inbound framing and partial-delivery handling
(`WorldSocket::ProcessIncomingData`), opcode dispatch, the credentials
handshake (`WorldSocket::HandleAuthSession`) and the keepalive monitor
(`WorldSocket::HandlePing`).

Machine integers are modelled as `Nat` with explicit `% 2 ^ w` truncation
where overflow matters.  External collaborators (database queries, the SHA-1
hash, the stream cipher keystream, world configuration) are passed in as
explicit inputs or function parameters, so every definition below is a
deterministic function of its inputs, mirroring the branch structure of the
C++ source.
-/

namespace WorldSocketModel

/-! ### Outbound header: `ServerPktHeader` (WorldSocket.cpp lines 48-81)

The constructor writes, into `header[]`:
  - if `size > 0x7FFF` (a "large" packet) a first byte `0x80 | (0xFF & (size >> 16))`;
  - then `0xFF & (size >> 8)` and `0xFF & size` (big-endian 16-bit remainder);
  - then `0xFF & cmd` and `0xFF & (cmd >> 8)` (little-endian 16-bit opcode).
-/

/-- `ServerPktHeader::isLargePacket`: `size > 0x7FFF`. -/
def isLargePacket (size : Nat) : Bool :=
  size > 0x7FFF

/-- The byte sequence produced by the `ServerPktHeader` constructor for a
given `(size, cmd)` pair, truncated to `getHeaderLength()` bytes (3-byte
size form when large, 2-byte otherwise, followed by the 2-byte opcode). -/
def serverPktHeader (size cmd : Nat) : List Nat :=
  if isLargePacket size then
    [0x80 ||| (0xFF &&& (size >>> 16)),
     0xFF &&& (size >>> 8),
     0xFF &&& size,
     0xFF &&& cmd,
     0xFF &&& (cmd >>> 8)]
  else
    [0xFF &&& (size >>> 8),
     0xFF &&& size,
     0xFF &&& cmd,
     0xFF &&& (cmd >>> 8)]

/-- `ServerPktHeader::getHeaderLength`: 2 opcode bytes plus 3 or 2 size bytes. -/
def getHeaderLength (size : Nat) : Nat :=
  2 + (if isLargePacket size then 3 else 2)

/-! ### Inbound framing: `WorldSocket::ProcessIncomingData` (lines 148-216)

The inbound `ClientPktHeader` is 6 bytes: a 16-bit size (converted with
`EndianConvertReverse`, i.e. the wire bytes are big-endian) and a 32-bit
command (`EndianConvert`, little-endian wire bytes, a no-op on the
little-endian host).  The size test at line 175 is
  `(header.size < 4) || (header.size > 0x2800) && header.cmd != 0x4C524F57`
and C++ `&&` binds tighter than `||`, so the legacy opcode `0x4C524F57` is
exempt from the upper bound only; the `size < 4` disjunct fires for every
opcode.

The stream cipher (`m_crypt.DecryptRecv`) is modelled abstractly as a
position-dependent byte transform `f : Nat → Nat → Nat` applied at the
current keystream position, which advances by one per byte processed
(per spec section 4.2 the cipher is a running keystream over header bytes
only; its implementation is outside the sampled file). -/

/-- The malformed-packet test of `WorldSocket::ProcessIncomingData`
(line 175), with the C++ operator precedence made explicit. -/
def clientHeaderInvalid (size cmd : Nat) : Bool :=
  (size < 4) || ((size > 0x2800) && (cmd != 0x4C524F57))

/-- The decrypted inbound header: 16-bit `size`, 32-bit `cmd`. -/
structure ClientPktHeader where
  size : Nat
  cmd : Nat
deriving DecidableEq

/-- `sizeof(ClientPktHeader)`: 2 size bytes plus 4 cmd bytes. -/
def clientPktHeaderSize : Nat := 6

/-- The per-connection socket state relevant to inbound framing: the receive
buffer with its read position, the cached decrypted header
(`m_useExistingHeader` / `m_existingHeader`) and the receive keystream
position of `m_crypt`. -/
structure WS where
  buf : List Nat
  readPos : Nat
  useExistingHeader : Bool
  existingHeader : ClientPktHeader
  cryptPos : Nat
deriving DecidableEq

/-- `m_crypt.DecryptRecv`: apply the keystream transform `f` to each byte at
the running keystream position, producing bytes (`% 256`). -/
def decryptRecv (f : Nat → Nat → Nat) : Nat → List Nat → List Nat
  | _, [] => []
  | pos, b :: rest => f pos b % 256 :: decryptRecv f (pos + 1) rest

/-- Reassemble the header fields from the 6 decrypted bytes:
`EndianConvertReverse(header.size)` makes the size big-endian in bytes 0-1,
and `EndianConvert(header.cmd)` leaves the little-endian bytes 2-5. -/
def parseClientHeader (b : List Nat) : ClientPktHeader :=
  { size := 256 * b.getD 0 0 + b.getD 1 0,
    cmd := b.getD 2 0 + 256 * b.getD 3 0 + 65536 * b.getD 4 0
      + 16777216 * b.getD 5 0 }

/-- Outcome of one `ProcessIncomingData` pass, up to the opcode dispatch
switch: a fatal framing error, a "need more data" retry (either no full
header yet, or the declared body not fully buffered), or one decoded
message. -/
inductive ProcResult
  | headerIncomplete
  | framingError
  | bodyIncomplete
  | msg (opcode : Nat) (body : List Nat)
deriving DecidableEq

/-- `WorldSocket::ProcessIncomingData` from the size validation (line 175)
onward: reject malformed sizes, compute `validBytesRemaining = size - 4`,
cache the header and rewind when the body is not fully buffered
(lines 187-199), otherwise consume the body into one decoded message. -/
def processAfterHeader (header : ClientPktHeader) (s : WS) : ProcResult × WS :=
  if clientHeaderInvalid header.size header.cmd then
    (.framingError, s)
  else
    let validBytesRemaining := header.size - 4
    if validBytesRemaining > s.buf.length - s.readPos then
      (.bodyIncomplete,
        { s with useExistingHeader := true, existingHeader := header,
                 readPos := s.readPos - clientPktHeaderSize })
    else
      (.msg header.cmd ((s.buf.drop s.readPos).take validBytesRemaining),
        { s with readPos := s.readPos + validBytesRemaining })

/-- `WorldSocket::ProcessIncomingData` (lines 148-216): reuse the cached
decrypted header (skipping its bytes without decrypting again) when
`m_useExistingHeader` is set; otherwise read 6 bytes, decrypt them
(advancing the keystream) and parse them. -/
def processIncomingData (f : Nat → Nat → Nat) (s : WS) : ProcResult × WS :=
  if s.useExistingHeader then
    processAfterHeader s.existingHeader
      { s with useExistingHeader := false,
               readPos := s.readPos + clientPktHeaderSize }
  else if s.buf.length < s.readPos + clientPktHeaderSize then
    (.headerIncomplete, s)
  else
    let raw := (s.buf.drop s.readPos).take clientPktHeaderSize
    let header := parseClientHeader (decryptRecv f s.cryptPos raw)
    processAfterHeader header
      { s with readPos := s.readPos + clientPktHeaderSize,
               cryptPos := s.cryptPos + clientPktHeaderSize }

/-! ### Opcode dispatch (lines 218-263)

The switch cases `CMSG_AUTH_SESSION`, `CMSG_PING` and `CMSG_KEEP_ALIVE` are
numeric constants from `Opcodes.h`, which is outside the sampled file; the
dispatch is therefore parameterised by their values. -/

/-- The reserved opcode numbers consumed inline by the switch (their
numeric values live in `Opcodes.h`, outside the sampled file). -/
structure OpcodeSet where
  CMSG_AUTH_SESSION : Nat
  CMSG_PING : Nat
  CMSG_KEEP_ALIVE : Nat
deriving DecidableEq

/-- What the dispatch switch decides for one decoded message.
`authSessionAgain` and `notAuthed` make `ProcessIncomingData` return
`false`, i.e. the caller closes the connection. -/
inductive RouteResult
  | wowConnection
  | authSession
  | authSessionAgain
  | ping
  | keepAlive
  | notAuthed
  | queued (opcode : Nat) (body : List Nat)
deriving DecidableEq

/-- The dispatch switch of `ProcessIncomingData` (lines 220-262): the legacy
opener `0x4C524F57` and the three reserved opcodes are handled inline
(`CMSG_AUTH_SESSION` re-submission on an authenticated connection is an
error); every other opcode is queued unchanged when a session is bound and
is a not-authenticated error otherwise. -/
def dispatchOpcode (ops : OpcodeSet) (hasSession : Bool) (opcode : Nat)
    (body : List Nat) : RouteResult :=
  if opcode = 0x4C524F57 then .wowConnection
  else if opcode = ops.CMSG_AUTH_SESSION then
    (if hasSession then .authSessionAgain else .authSession)
  else if opcode = ops.CMSG_PING then .ping
  else if opcode = ops.CMSG_KEEP_ALIVE then .keepAlive
  else if hasSession then .queued opcode body
  else .notAuthed

/-! ### Keepalive monitor: `WorldSocket::HandlePing` (lines 542-602) -/

/-- `SEC_PLAYER`, the lowest account security tier (enum value from
`Common.h`, outside the sampled file; only its identity matters here). -/
def SEC_PLAYER : Nat := 0

/-- `SEC_ADMINISTRATOR`, the maximum defined security level, used by
`HandleAuthSession` to clamp corrupt database records (enum value from
`Common.h`, outside the sampled file). -/
def SEC_ADMINISTRATOR : Nat := 3

/-- The per-connection keepalive state: `m_lastPingTime` (`none` models the
`time_point::min()` sentinel) and `m_overSpeedPings`.  Time is in seconds,
matching the `duration_cast<seconds>` granularity of the source. -/
structure PingState where
  lastPingTime : Option Nat
  overSpeedPings : Nat
deriving DecidableEq

/-- The tail of `HandlePing` (lines 580-601): a bound session gets its
latency updated and a `SMSG_PONG` reply (`true`); an unauthenticated peer
is an error (`false`). -/
def pingSessionCheck (session : Option Nat) (st : PingState) :
    Bool × PingState :=
  if session.isSome then (true, st) else (false, st)

/-- `WorldSocket::HandlePing` (lines 542-602), with the bound session
abstracted to its security level (`session : Option Nat`) and `now` the
current time in seconds.  The first ping only records the timestamp;
afterwards an interval `< 27` seconds increments `m_overSpeedPings` and, at
a nonzero configured cap `max_count`, a count exceeding the cap kicks a
`SEC_PLAYER` session; an interval `≥ 27` seconds resets the count. -/
def handlePing (maxCount : Nat) (session : Option Nat) (now : Nat)
    (st : PingState) : Bool × PingState :=
  match st.lastPingTime with
  | none => pingSessionCheck session ⟨some now, st.overSpeedPings⟩
  | some last =>
    let seconds := now - last
    if seconds < 27 then
      let overSpeed := st.overSpeedPings + 1
      if maxCount ≠ 0 ∧ overSpeed > maxCount ∧ session = some SEC_PLAYER then
        (false, ⟨some now, overSpeed⟩)
      else
        pingSessionCheck session ⟨some now, overSpeed⟩
    else
      pingSessionCheck session ⟨some now, 0⟩

/-! ### Credentials handshake: `WorldSocket::HandleAuthSession` (lines 287-540)

The function is modelled from the point where the wire fields have been
parsed (lines 300-342).  The external collaborators become inputs:
  - the account row returned by the `SELECT ... FROM account` query;
  - the result of the ban query (`Option`/`Bool`);
  - the world configuration (`IsAcceptableClientBuild` set,
    `CONFIG_UINT32_EXPANSION`, `GetPlayerSecurityLimit`, `MAX_LOCALE`);
  - the SHA-1 digest computation, abstracted as a function of exactly the
    data the source feeds it (account name, a 32-bit zero, client seed,
    server seed, session key `K`).
The observable effects (packets sent, session construction, cipher rekey,
audit insert, world registration, which rejection was logged) are collected
in `AuthOutcome`. -/

/-- The parsed fields of the `CMSG_AUTH_SESSION` message that the checks
consume. -/
structure Credentials where
  digest : List Nat
  clientBuild : Nat
  clientSeed : Nat
  accountName : String
  addonData : List Nat
deriving DecidableEq

/-- One row of the `account` table as selected at lines 368-382. -/
structure AccountRecord where
  id : Nat
  gmlevel : Nat
  sessionkey : List Nat
  lockedIp : String
  locked : Nat
  v : String
  s : String
  expansion : Nat
  mutetime : Nat
  locale : Nat
deriving DecidableEq

/-- The world-configuration values `HandleAuthSession` reads. `maxLocale`
is the `MAX_LOCALE` bound of the locale enum (from `Common.h`, outside the
sampled file). -/
structure AuthConfig where
  acceptedBuilds : List Nat
  configExpansion : Nat
  playerSecurityLimit : Nat
  maxLocale : Nat
deriving DecidableEq

/-- `LOCALE_enUS`, the default locale substituted for out-of-range stored
locales (enum value 0 in `Common.h`, outside the sampled file). -/
def LOCALE_enUS : Nat := 0

/-- The reason bytes streamed into the rejection responses
(`AUTH_*` values from `SharedDefines.h`, outside the sampled file; only
their identities matter). -/
inductive RespCode
  | AUTH_VERSION_MISMATCH
  | AUTH_UNKNOWN_ACCOUNT
  | AUTH_FAILED
  | AUTH_BANNED
  | AUTH_UNAVAILABLE
deriving DecidableEq

/-- Server-to-client opcodes appearing in this file. -/
inductive PktOpcode
  | SMSG_AUTH_RESPONSE
  | SMSG_AUTH_CHALLENGE
  | SMSG_PONG
deriving DecidableEq

/-- A `WorldPacket` being assembled: its opcode (a default-constructed
packet has none), the bits written by `WriteBit` and the bytes streamed with
`operator<<`. -/
structure WPacket where
  opcode : Option PktOpcode
  bits : List Bool
  bytes : List RespCode
deriving DecidableEq

/-- `WorldPacket packet;` — default construction. -/
def WPacket.empty : WPacket := ⟨none, [], []⟩

/-- `packet.Initialize(op, size)`: set the opcode and clear the contents. -/
def WPacket.initPacket (_p : WPacket) (op : PktOpcode) : WPacket :=
  ⟨some op, [], []⟩

/-- `packet.WriteBit(b)`. -/
def WPacket.writeBit (p : WPacket) (b : Bool) : WPacket :=
  ⟨p.opcode, p.bits ++ [b], p.bytes⟩

/-- `packet << uint8(code)`. -/
def WPacket.writeByte (p : WPacket) (r : RespCode) : WPacket :=
  ⟨p.opcode, p.bits, p.bytes ++ [r]⟩

/-- The standard rejection response shape used by the version, unknown
account, IP lock, ban and digest paths: `Initialize(SMSG_AUTH_RESPONSE, 2)`,
two `WriteBit(false)`, then the reason byte. -/
def authRejectPacket (p : WPacket) (r : RespCode) : WPacket :=
  (((p.initPacket .SMSG_AUTH_RESPONSE).writeBit false).writeBit false).writeByte r

/-- Which rejection path of `HandleAuthSession` fired (each path logs a
distinct message and returns `false`). -/
inductive RejectReason
  | versionMismatch
  | unknownAccount
  | ipLocked
  | banned
  | securityGate
  | digestMismatch
deriving DecidableEq

/-- The `WorldSession` constructed on success (line 529). -/
structure SessionData where
  id : Nat
  security : Nat
  expansion : Nat
  mutetime : Nat
  locale : Nat
deriving DecidableEq

/-- Everything observable about one `HandleAuthSession` call: the returned
verdict, the packets passed to `SendPacket`, which rejection path fired (if
any), the constructed session (`m_session`), and whether the cipher was
rekeyed (`m_crypt.Init`), the login audit row inserted, and the session
registered with the world (`sWorld.AddSession`). -/
structure AuthOutcome where
  verdict : Bool
  sent : List WPacket
  rejection : Option RejectReason
  session : Option SessionData
  cryptInit : Bool
  auditInserted : Bool
  addedToWorld : Bool
deriving DecidableEq

/-- `WorldSocket::HandleAuthSession` from the version check (line 349)
onward, with every branch in source order: version mismatch (350), unknown
account (385), expansion clamp (400), IP lock (420), security clamp (438),
locale defaulting (445), ban (460), security gate (477), digest comparison
(503), then success (516-539).

On the security-gate path the source constructs a fresh local
`WorldPacket Packet(SMSG_AUTH_RESPONSE, 2)` shadowing the function-scope
`packet`, writes the two bits into `packet`, streams `AUTH_UNAVAILABLE`
into `Packet`, and then sends `packet` — the modelling below reproduces
that mixed-case use verbatim. -/
def handleAuthSession (sha : String → Nat → Nat → Nat → List Nat → List Nat)
    (cfg : AuthConfig) (remoteAddress : String) (serverSeed : Nat)
    (cred : Credentials) (accountQuery : Option AccountRecord)
    (banQuery : Bool) : AuthOutcome :=
  let packet := WPacket.empty
  if cred.clientBuild ∉ cfg.acceptedBuilds then
    { verdict := false, sent := [authRejectPacket packet .AUTH_VERSION_MISMATCH],
      rejection := some .versionMismatch, session := none,
      cryptInit := false, auditInserted := false, addedToWorld := false }
  else
    match accountQuery with
    | none =>
      { verdict := false, sent := [authRejectPacket packet .AUTH_UNKNOWN_ACCOUNT],
        rejection := some .unknownAccount, session := none,
        cryptInit := false, auditInserted := false, addedToWorld := false }
    | some fields =>
      let expansion :=
        if cfg.configExpansion > fields.expansion then fields.expansion
        else cfg.configExpansion
      if fields.locked = 1 ∧ fields.lockedIp ≠ remoteAddress then
        { verdict := false, sent := [authRejectPacket packet .AUTH_FAILED],
          rejection := some .ipLocked, session := none,
          cryptInit := false, auditInserted := false, addedToWorld := false }
      else
        let security :=
          if fields.gmlevel > SEC_ADMINISTRATOR then SEC_ADMINISTRATOR
          else fields.gmlevel
        let locale :=
          if fields.locale ≥ cfg.maxLocale then LOCALE_enUS else fields.locale
        if banQuery then
          { verdict := false, sent := [authRejectPacket packet .AUTH_BANNED],
            rejection := some .banned, session := none,
            cryptInit := false, auditInserted := false, addedToWorld := false }
        else if cfg.playerSecurityLimit > SEC_PLAYER
            ∧ security < cfg.playerSecurityLimit then
          let bigPacket := WPacket.empty.initPacket .SMSG_AUTH_RESPONSE
          let packet := (packet.writeBit false).writeBit false
          let _bigPacket := bigPacket.writeByte .AUTH_UNAVAILABLE
          { verdict := false, sent := [packet],
            rejection := some .securityGate, session := none,
            cryptInit := false, auditInserted := false, addedToWorld := false }
        else if sha cred.accountName 0 cred.clientSeed serverSeed
            fields.sessionkey ≠ cred.digest then
          { verdict := false, sent := [authRejectPacket packet .AUTH_FAILED],
            rejection := some .digestMismatch, session := none,
            cryptInit := false, auditInserted := false, addedToWorld := false }
        else
          { verdict := true, sent := [], rejection := none,
            session := some ⟨fields.id, security, expansion,
              fields.mutetime, locale⟩,
            cryptInit := true, auditInserted := true, addedToWorld := true }

/-- The rejection precedence exactly as claim C1 words it: version →
unknown account → IP lock → digest → ban → security gate, with each step
triggered by the same condition the source tests. -/
def claimedRejectReason (sha : String → Nat → Nat → Nat → List Nat → List Nat)
    (cfg : AuthConfig) (remoteAddress : String) (serverSeed : Nat)
    (cred : Credentials) (accountQuery : Option AccountRecord)
    (banQuery : Bool) : Option RejectReason :=
  if cred.clientBuild ∉ cfg.acceptedBuilds then some .versionMismatch
  else
    match accountQuery with
    | none => some .unknownAccount
    | some fields =>
      if fields.locked = 1 ∧ fields.lockedIp ≠ remoteAddress then
        some .ipLocked
      else if sha cred.accountName 0 cred.clientSeed serverSeed
          fields.sessionkey ≠ cred.digest then
        some .digestMismatch
      else if banQuery then
        some .banned
      else if cfg.playerSecurityLimit > SEC_PLAYER
          ∧ (if fields.gmlevel > SEC_ADMINISTRATOR then SEC_ADMINISTRATOR
             else fields.gmlevel) < cfg.playerSecurityLimit then
        some .securityGate
      else none

/-- The rejection precedence the source actually implements: version →
unknown account → IP lock → ban → security gate → digest. -/
def sourceRejectReason (sha : String → Nat → Nat → Nat → List Nat → List Nat)
    (cfg : AuthConfig) (remoteAddress : String) (serverSeed : Nat)
    (cred : Credentials) (accountQuery : Option AccountRecord)
    (banQuery : Bool) : Option RejectReason :=
  if cred.clientBuild ∉ cfg.acceptedBuilds then some .versionMismatch
  else
    match accountQuery with
    | none => some .unknownAccount
    | some fields =>
      if fields.locked = 1 ∧ fields.lockedIp ≠ remoteAddress then
        some .ipLocked
      else if banQuery then
        some .banned
      else if cfg.playerSecurityLimit > SEC_PLAYER
          ∧ (if fields.gmlevel > SEC_ADMINISTRATOR then SEC_ADMINISTRATOR
             else fields.gmlevel) < cfg.playerSecurityLimit then
        some .securityGate
      else if sha cred.accountName 0 cred.clientSeed serverSeed
          fields.sessionkey ≠ cred.digest then
        some .digestMismatch
      else none

end WorldSocketModel

namespace WorldSocketModel

/-! ## Theorems -/

/-- Claim C2: for every inbound header with a non-legacy opcode, the framing
validation of `ProcessIncomingData` rejects fatally exactly the declared
sizes `< 4` or `> 0x2800`; size 3 is rejected, 0x2801 is rejected, 0x2800
is accepted; and an invalid header produces `framingError` with no message
decoded. -/
theorem framing_bounds_nonlegacy (size cmd : Nat) (hcmd : cmd ≠ 0x4C524F57) :
    (clientHeaderInvalid size cmd = true ↔ (size < 4 ∨ 0x2800 < size)) ∧
    clientHeaderInvalid 3 cmd = true ∧
    clientHeaderInvalid 0x2801 cmd = true ∧
    clientHeaderInvalid 0x2800 cmd = false ∧
    (∀ (h : ClientPktHeader) (s : WS), clientHeaderInvalid h.size h.cmd = true →
      processAfterHeader h s = (.framingError, s)) := by
  have hb : (cmd != 0x4C524F57) = true := by
    simp [bne_iff_ne, hcmd]
  refine ⟨?_, ?_, ?_, ?_, ?_⟩
  · simp [clientHeaderInvalid, hb, Nat.lt_iff_add_one_le]
  · simp [clientHeaderInvalid]
  · simp [clientHeaderInvalid, hb]
  · simp [clientHeaderInvalid]
  · intro h s hinv
    simp [processAfterHeader, hinv]

/-- Witness for `framing_bounds_nonlegacy` at `cmd = 17`. -/
theorem framing_bounds_nonlegacy_witness :
    (clientHeaderInvalid 3 17 = true ↔ (3 < 4 ∨ 0x2800 < 3)) ∧
    clientHeaderInvalid 3 17 = true ∧
    clientHeaderInvalid 0x2801 17 = true ∧
    clientHeaderInvalid 0x2800 17 = false ∧
    (∀ (h : ClientPktHeader) (s : WS), clientHeaderInvalid h.size h.cmd = true →
      processAfterHeader h s = (.framingError, s)) :=
  framing_bounds_nonlegacy 3 17 (by decide)

/-- Claim C3 counterexample: the claim says a header carrying the legacy
opcode `0x4C524F57` passes size validation for every declared size,
including sizes below 4; but at declared size 3 the validation still
rejects — the `size < 4` disjunct is outside the `&&`. -/
theorem legacy_small_size_rejected :
    clientHeaderInvalid 3 0x4C524F57 = true := by decide

/-- Claim C3 (amended): a header carrying the legacy opcode is exempt from
the 0x2800 upper bound only; it passes size validation exactly when the
declared size is at least 4. -/
theorem legacy_size_validation (size : Nat) :
    clientHeaderInvalid size 0x4C524F57 = false ↔ 4 ≤ size := by
  simp [clientHeaderInvalid]

/-- `0xFF &&& n` is truncation to one byte. -/
theorem and255 (n : Nat) : 0xFF &&& n = n % 256 := by
  rw [Nat.and_comm]; exact Nat.and_pow_two_sub_one_eq_mod n 8

/-- Claim C5: the outbound header is the 2-byte big-endian size followed by
the little-endian opcode when `size ≤ 0x7FFF`, and the 3-byte size form with
first byte `0x80 ||| (size >>> 16)` when `size > 0x7FFF`; the boundary is
exact (`0x7FFF` short, `0x8000` long). Sizes are effectively below `2^23`
outbound and opcodes are 16-bit. -/
theorem serverPktHeader_form (size cmd : Nat)
    (hs : size < 0x800000) (hc : cmd < 0x10000) :
    (size ≤ 0x7FFF → serverPktHeader size cmd =
      [size / 256, size % 256, cmd % 256, cmd / 256]) ∧
    (0x7FFF < size → serverPktHeader size cmd =
      [0x80 ||| size / 65536, size / 256 % 256, size % 256,
       cmd % 256, cmd / 256]) ∧
    serverPktHeader 0x7FFF 0 = [0x7F, 0xFF, 0, 0] ∧
    serverPktHeader 0x8000 0 = [0x80, 0x80, 0, 0, 0] := by
  refine ⟨?_, ?_, by decide, by decide⟩
  · intro h
    simp [serverPktHeader, isLargePacket, Nat.not_lt.mpr h, and255,
      Nat.shiftRight_eq_div_pow]
    omega
  · intro h
    simp [serverPktHeader, isLargePacket, h, and255,
      Nat.shiftRight_eq_div_pow]
    refine ⟨?_, by omega⟩
    congr 1
    omega

/-- Witness for `serverPktHeader_form` at the long-form boundary
`size = 0x8000`, `cmd = 0x1234`. -/
theorem serverPktHeader_form_witness :
    (0x8000 ≤ 0x7FFF → serverPktHeader 0x8000 0x1234 =
      [0x8000 / 256, 0x8000 % 256, 0x1234 % 256, 0x1234 / 256]) ∧
    (0x7FFF < 0x8000 → serverPktHeader 0x8000 0x1234 =
      [0x80 ||| 0x8000 / 65536, 0x8000 / 256 % 256, 0x8000 % 256,
       0x1234 % 256, 0x1234 / 256]) ∧
    serverPktHeader 0x7FFF 0 = [0x7F, 0xFF, 0, 0] ∧
    serverPktHeader 0x8000 0 = [0x80, 0x80, 0, 0, 0] :=
  serverPktHeader_form 0x8000 0x1234 (by decide) (by decide)

/-- Reading a fresh header from the front of the buffer: decrypt the 6
bytes (advancing the keystream by 6) and continue with the parsed header. -/
theorem processIncomingData_read (f : Nat → Nat → Nat)
    (c b0 b1 b2 b3 b4 b5 : Nat) (rest : List Nat) (eh : ClientPktHeader) :
    processIncomingData f ⟨b0 :: b1 :: b2 :: b3 :: b4 :: b5 :: rest, 0,
      false, eh, c⟩ =
    processAfterHeader (parseClientHeader (decryptRecv f c [b0, b1, b2, b3, b4, b5]))
      ⟨b0 :: b1 :: b2 :: b3 :: b4 :: b5 :: rest, 6, false, eh, c + 6⟩ := by
  have hlen : ¬ ((b0 :: b1 :: b2 :: b3 :: b4 :: b5 :: rest).length
      < 0 + clientPktHeaderSize) := by
    simp [clientPktHeaderSize]
  unfold processIncomingData
  rw [if_neg (by simp), if_neg hlen]
  rfl

/-- Retrying with the cached header: the flag is cleared, the header bytes
are skipped, and the keystream position does not move. -/
theorem processIncomingData_cached (f : Nat → Nat → Nat) (buf : List Nat)
    (p c : Nat) (hdr : ClientPktHeader) :
    processIncomingData f ⟨buf, p, true, hdr, c⟩ =
      processAfterHeader hdr ⟨buf, p + 6, false, hdr, c⟩ := by
  unfold processIncomingData
  rfl

/-- Claim C4: a complete message delivered as a full header plus a partial
body and then the remainder is decoded exactly once, identically to the
whole-message delivery, and `DecryptRecv` touches the header exactly once:
the keystream advances from `c` to `c + 6` on the first (incomplete) pass,
the decrypted header is cached, and the retry reuses it, skipping the
header bytes with the keystream position unchanged. -/
theorem partial_delivery_idempotent (f : Nat → Nat → Nat)
    (c b0 b1 b2 b3 b4 b5 : Nat) (body : List Nat) (k : Nat)
    (hvalid : clientHeaderInvalid
      (parseClientHeader (decryptRecv f c [b0, b1, b2, b3, b4, b5])).size
      (parseClientHeader (decryptRecv f c [b0, b1, b2, b3, b4, b5])).cmd = false)
    (hsize : (parseClientHeader (decryptRecv f c [b0, b1, b2, b3, b4, b5])).size
      = body.length + 4)
    (hk : k < body.length) :
    processIncomingData f
      ⟨[b0, b1, b2, b3, b4, b5] ++ body, 0, false, ⟨0, 0⟩, c⟩ =
      (.msg (parseClientHeader (decryptRecv f c [b0, b1, b2, b3, b4, b5])).cmd body,
       ⟨[b0, b1, b2, b3, b4, b5] ++ body, 6 + body.length, false, ⟨0, 0⟩, c + 6⟩) ∧
    processIncomingData f
      ⟨[b0, b1, b2, b3, b4, b5] ++ body.take k, 0, false, ⟨0, 0⟩, c⟩ =
      (.bodyIncomplete,
       ⟨[b0, b1, b2, b3, b4, b5] ++ body.take k, 0, true,
        parseClientHeader (decryptRecv f c [b0, b1, b2, b3, b4, b5]), c + 6⟩) ∧
    processIncomingData f
      ⟨([b0, b1, b2, b3, b4, b5] ++ body.take k) ++ body.drop k, 0, true,
       parseClientHeader (decryptRecv f c [b0, b1, b2, b3, b4, b5]), c + 6⟩ =
      (.msg (parseClientHeader (decryptRecv f c [b0, b1, b2, b3, b4, b5])).cmd body,
       ⟨([b0, b1, b2, b3, b4, b5] ++ body.take k) ++ body.drop k,
        6 + body.length, false,
        parseClientHeader (decryptRecv f c [b0, b1, b2, b3, b4, b5]), c + 6⟩) := by
  generalize hg : parseClientHeader (decryptRecv f c [b0, b1, b2, b3, b4, b5])
    = hdr at hvalid hsize ⊢
  have htk : (body.take k).length = k := by
    simp [List.length_take]; omega
  refine ⟨?_, ?_, ?_⟩
  · show processIncomingData f
      ⟨b0 :: b1 :: b2 :: b3 :: b4 :: b5 :: body, 0, false, ⟨0, 0⟩, c⟩ = _
    rw [processIncomingData_read, hg]
    unfold processAfterHeader
    rw [if_neg (by simp [hvalid])]
    have hcond : ¬ (hdr.size - 4 >
        (b0 :: b1 :: b2 :: b3 :: b4 :: b5 :: body).length - 6) := by
      simp [hsize]
    rw [if_neg hcond]
    simp [hsize]
  · show processIncomingData f
      ⟨b0 :: b1 :: b2 :: b3 :: b4 :: b5 :: body.take k, 0, false, ⟨0, 0⟩, c⟩ = _
    rw [processIncomingData_read, hg]
    unfold processAfterHeader
    rw [if_neg (by simp [hvalid])]
    have hcond : hdr.size - 4 >
        (b0 :: b1 :: b2 :: b3 :: b4 :: b5 :: body.take k).length - 6 := by
      simp [hsize, htk]; omega
    rw [if_pos hcond]
    rfl
  · show processIncomingData f
      ⟨b0 :: b1 :: b2 :: b3 :: b4 :: b5 :: (body.take k ++ body.drop k), 0,
       true, hdr, c + 6⟩ = _
    rw [processIncomingData_cached]
    unfold processAfterHeader
    rw [if_neg (by simp [hvalid])]
    have hcond : ¬ (hdr.size - 4 >
        (b0 :: b1 :: b2 :: b3 :: b4 :: b5 ::
          (body.take k ++ body.drop k)).length - (0 + 6)) := by
      simp [hsize]
    rw [if_neg hcond]
    simp [hsize, List.take_append_drop]

/-- Witness for `partial_delivery_idempotent`: identity keystream, header
declaring size 6 and opcode 1, body `[9, 9]`, split after one body byte. -/
theorem partial_delivery_idempotent_witness :
    processIncomingData (fun _ b => b)
      ⟨[0, 6, 1, 0, 0, 0] ++ [9, 9], 0, false, ⟨0, 0⟩, 0⟩ =
      (.msg 1 [9, 9], ⟨[0, 6, 1, 0, 0, 0] ++ [9, 9], 8, false, ⟨0, 0⟩, 6⟩) ∧
    processIncomingData (fun _ b => b)
      ⟨[0, 6, 1, 0, 0, 0] ++ [9], 0, false, ⟨0, 0⟩, 0⟩ =
      (.bodyIncomplete, ⟨[0, 6, 1, 0, 0, 0] ++ [9], 0, true, ⟨6, 1⟩, 6⟩) ∧
    processIncomingData (fun _ b => b)
      ⟨([0, 6, 1, 0, 0, 0] ++ [9]) ++ [9], 0, true, ⟨6, 1⟩, 6⟩ =
      (.msg 1 [9, 9],
       ⟨([0, 6, 1, 0, 0, 0] ++ [9]) ++ [9], 8, false, ⟨6, 1⟩, 6⟩) :=
  partial_delivery_idempotent (fun _ b => b) 0 0 6 1 0 0 0 [9, 9] 1
    (by decide) (by decide) (by decide)

/-- Claim C6: with a session of security `sec` bound, the first ping only
records the timestamp and is accepted; a subsequent ping after less than 27
seconds increments `m_overSpeedPings` and kicks exactly when the configured
cap is nonzero, the new count exceeds the cap and `sec` is `SEC_PLAYER`
(higher tiers are never kicked); a subsequent ping after 27 seconds or more
resets the count to 0 and is accepted. -/
theorem handlePing_overspeed (maxCount sec now : Nat) (st : PingState) :
    (st.lastPingTime = none →
      handlePing maxCount (some sec) now st =
        (true, ⟨some now, st.overSpeedPings⟩)) ∧
    (∀ last, st.lastPingTime = some last → now - last < 27 →
      (handlePing maxCount (some sec) now st).2 =
        ⟨some now, st.overSpeedPings + 1⟩ ∧
      ((handlePing maxCount (some sec) now st).1 = false ↔
        (maxCount ≠ 0 ∧ maxCount < st.overSpeedPings + 1 ∧ sec = SEC_PLAYER))) ∧
    (∀ last, st.lastPingTime = some last → 27 ≤ now - last →
      handlePing maxCount (some sec) now st = (true, ⟨some now, 0⟩)) := by
  obtain ⟨lp, os⟩ := st
  refine ⟨?_, ?_, ?_⟩
  · intro h
    simp only at h
    subst h
    simp [handlePing, pingSessionCheck]
  · intro last h hlt
    simp only at h
    subst h
    simp only [handlePing]
    rw [if_pos hlt]
    by_cases hkick : maxCount ≠ 0 ∧ os + 1 > maxCount
        ∧ (some sec : Option Nat) = some SEC_PLAYER
    · rw [if_pos hkick]
      refine ⟨rfl, ?_⟩
      simp only [gt_iff_lt, Option.some.injEq] at hkick
      simp [hkick]
    · rw [if_neg hkick]
      simp only [gt_iff_lt, Option.some.injEq] at hkick
      simp [pingSessionCheck, hkick]
  · intro last h hge
    simp only at h
    subst h
    simp only [handlePing]
    rw [if_neg (by omega)]
    simp [pingSessionCheck]

/-- Witness for `handlePing_overspeed`: cap 2, a `SEC_PLAYER` session, a
ping at `t = 10` following one at `t = 0` with two overspeed pings already
counted — the third rapid ping is kicked. -/
theorem handlePing_overspeed_witness :
    ((⟨some 0, 2⟩ : PingState).lastPingTime = none →
      handlePing 2 (some SEC_PLAYER) 10 ⟨some 0, 2⟩ = (true, ⟨some 10, 2⟩)) ∧
    (∀ last, (⟨some 0, 2⟩ : PingState).lastPingTime = some last →
      10 - last < 27 →
      (handlePing 2 (some SEC_PLAYER) 10 ⟨some 0, 2⟩).2 = ⟨some 10, 3⟩ ∧
      ((handlePing 2 (some SEC_PLAYER) 10 ⟨some 0, 2⟩).1 = false ↔
        (2 ≠ 0 ∧ 2 < 3 ∧ SEC_PLAYER = SEC_PLAYER))) ∧
    (∀ last, (⟨some 0, 2⟩ : PingState).lastPingTime = some last →
      27 ≤ 10 - last →
      handlePing 2 (some SEC_PLAYER) 10 ⟨some 0, 2⟩ = (true, ⟨some 10, 0⟩)) :=
  handlePing_overspeed 2 SEC_PLAYER 10 ⟨some 0, 2⟩

/-- Claim C7: any decoded opcode outside the reserved set (legacy opener,
`CMSG_AUTH_SESSION`, `CMSG_PING`, `CMSG_KEEP_ALIVE`) is routed by auth
state alone: with no bound session it is a not-authenticated error (the
connection closes), with a bound session the message is queued for the
simulation layer unchanged, whatever the opcode. -/
theorem router_nonreserved (ops : OpcodeSet) (opcode : Nat) (body : List Nat)
    (hasSession : Bool)
    (h1 : opcode ≠ 0x4C524F57) (h2 : opcode ≠ ops.CMSG_AUTH_SESSION)
    (h3 : opcode ≠ ops.CMSG_PING) (h4 : opcode ≠ ops.CMSG_KEEP_ALIVE) :
    dispatchOpcode ops hasSession opcode body =
      (if hasSession then .queued opcode body else .notAuthed) := by
  simp [dispatchOpcode, h1, h2, h3, h4]

/-- Witness for `router_nonreserved`: opcode 999 outside the reserved set
`{0x4C524F57, 1, 2, 3}`, both without and with a bound session. -/
theorem router_nonreserved_witness :
    dispatchOpcode ⟨1, 2, 3⟩ false 999 [5] =
      (if false then .queued 999 [5] else .notAuthed) ∧
    dispatchOpcode ⟨1, 2, 3⟩ true 999 [5] =
      (if true then .queued 999 [5] else .notAuthed) :=
  ⟨router_nonreserved ⟨1, 2, 3⟩ 999 [5] false (by decide) (by decide)
      (by decide) (by decide),
   router_nonreserved ⟨1, 2, 3⟩ 999 [5] true (by decide) (by decide)
      (by decide) (by decide)⟩

/-- Claim C1 counterexample: a credentials message that is both banned and
carries a wrong digest (all earlier checks passing).  The claim's
precedence (digest before ban) would report the digest mismatch; the code
performs the ban query first and reports the ban. -/
theorem auth_precedence_counterexample :
    (handleAuthSession (fun _ _ _ _ _ => []) ⟨[15595], 3, 0, 12⟩ "1.2.3.4" 0
        ⟨[1], 15595, 0, "A", []⟩
        (some ⟨1, 0, [], "", 0, "", "", 1, 0, 0⟩) true).rejection
      = some .banned ∧
    claimedRejectReason (fun _ _ _ _ _ => []) ⟨[15595], 3, 0, 12⟩ "1.2.3.4" 0
        ⟨[1], 15595, 0, "A", []⟩
        (some ⟨1, 0, [], "", 0, "", "", 1, 0, 0⟩) true
      = some .digestMismatch ∧
    RejectReason.banned ≠ RejectReason.digestMismatch := by
  decide

/-- Claim C1 (amended): the rejection reported by `HandleAuthSession` is
the first triggered in the precedence version → unknown account → IP lock
→ ban → security gate → digest mismatch; in particular the digest
comparison comes after the ban query and the security gate. -/
theorem auth_reject_precedence
    (sha : String → Nat → Nat → Nat → List Nat → List Nat)
    (cfg : AuthConfig) (remoteAddress : String) (serverSeed : Nat)
    (cred : Credentials) (accountQuery : Option AccountRecord)
    (banQuery : Bool) :
    (handleAuthSession sha cfg remoteAddress serverSeed cred accountQuery
      banQuery).rejection =
    sourceRejectReason sha cfg remoteAddress serverSeed cred accountQuery
      banQuery := by
  cases accountQuery with
  | none =>
    simp only [handleAuthSession, sourceRejectReason]
    split_ifs <;> rfl
  | some fields =>
    simp only [handleAuthSession, sourceRejectReason]
    split_ifs <;> rfl

/-- Claim C8 (code defect): on the security-gate rejection the source
builds a fresh `WorldPacket Packet(SMSG_AUTH_RESPONSE, 2)` but streams
`AUTH_UNAVAILABLE` into that shadowing local while sending the
never-initialized function-scope `packet` — so the packet actually sent
carries no reason byte at all (and no `SMSG_AUTH_RESPONSE` opcode), contra
the documented fixed-shape rejection response. -/
theorem security_gate_response_bug :
    handleAuthSession (fun _ _ _ _ _ => []) ⟨[15595], 3, 2, 12⟩ "1.2.3.4" 0
        ⟨[], 15595, 0, "A", []⟩
        (some ⟨1, 0, [], "", 0, "", "", 1, 0, 0⟩) false
      = ⟨false, [⟨none, [false, false], []⟩], some .securityGate, none,
         false, false, false⟩ := by
  decide

/-- Claim C9: whenever `HandleAuthSession` returns a failure verdict, no
partial authenticated state remains: no session object, no cipher rekey, no
login audit row, no world registration. -/
theorem auth_failure_no_partial_state
    (sha : String → Nat → Nat → Nat → List Nat → List Nat)
    (cfg : AuthConfig) (remoteAddress : String) (serverSeed : Nat)
    (cred : Credentials) (accountQuery : Option AccountRecord)
    (banQuery : Bool)
    (hfail : (handleAuthSession sha cfg remoteAddress serverSeed cred
      accountQuery banQuery).verdict = false) :
    (handleAuthSession sha cfg remoteAddress serverSeed cred accountQuery
      banQuery).session = none ∧
    (handleAuthSession sha cfg remoteAddress serverSeed cred accountQuery
      banQuery).cryptInit = false ∧
    (handleAuthSession sha cfg remoteAddress serverSeed cred accountQuery
      banQuery).auditInserted = false ∧
    (handleAuthSession sha cfg remoteAddress serverSeed cred accountQuery
      banQuery).addedToWorld = false := by
  cases accountQuery with
  | none =>
    simp only [handleAuthSession] at hfail ⊢
    split_ifs at hfail ⊢ <;> simp_all
  | some fields =>
    simp only [handleAuthSession] at hfail ⊢
    split_ifs at hfail ⊢ <;> simp_all

/-- Witness for `auth_failure_no_partial_state` at a version-mismatch
rejection (no accepted builds). -/
theorem auth_failure_no_partial_state_witness :
    (handleAuthSession (fun _ _ _ _ _ => []) ⟨[], 3, 0, 12⟩ "1.2.3.4" 0
      ⟨[], 15595, 0, "A", []⟩ none false).session = none ∧
    (handleAuthSession (fun _ _ _ _ _ => []) ⟨[], 3, 0, 12⟩ "1.2.3.4" 0
      ⟨[], 15595, 0, "A", []⟩ none false).cryptInit = false ∧
    (handleAuthSession (fun _ _ _ _ _ => []) ⟨[], 3, 0, 12⟩ "1.2.3.4" 0
      ⟨[], 15595, 0, "A", []⟩ none false).auditInserted = false ∧
    (handleAuthSession (fun _ _ _ _ _ => []) ⟨[], 3, 0, 12⟩ "1.2.3.4" 0
      ⟨[], 15595, 0, "A", []⟩ none false).addedToWorld = false :=
  auth_failure_no_partial_state (fun _ _ _ _ _ => []) ⟨[], 3, 0, 12⟩
    "1.2.3.4" 0 ⟨[], 15595, 0, "A", []⟩ none false (by decide)

/-- Claim C10: a stored locale at or above `MAX_LOCALE` does not fail
authentication — with every check passing, the verdict is success and the
session is constructed with the default `LOCALE_enUS` instead of the stored
value. -/
theorem oversized_locale_defaulted
    (sha : String → Nat → Nat → Nat → List Nat → List Nat)
    (cfg : AuthConfig) (remoteAddress : String) (serverSeed : Nat)
    (cred : Credentials) (fields : AccountRecord) (banQuery : Bool)
    (h1 : cred.clientBuild ∈ cfg.acceptedBuilds)
    (h2 : ¬(fields.locked = 1 ∧ fields.lockedIp ≠ remoteAddress))
    (h3 : banQuery = false)
    (h4 : ¬(cfg.playerSecurityLimit > SEC_PLAYER ∧
      (if fields.gmlevel > SEC_ADMINISTRATOR then SEC_ADMINISTRATOR
       else fields.gmlevel) < cfg.playerSecurityLimit))
    (h5 : sha cred.accountName 0 cred.clientSeed serverSeed
      fields.sessionkey = cred.digest)
    (h6 : fields.locale ≥ cfg.maxLocale) :
    (handleAuthSession sha cfg remoteAddress serverSeed cred (some fields)
      banQuery).verdict = true ∧
    (handleAuthSession sha cfg remoteAddress serverSeed cred (some fields)
      banQuery).session =
      some ⟨fields.id,
        (if fields.gmlevel > SEC_ADMINISTRATOR then SEC_ADMINISTRATOR
         else fields.gmlevel),
        (if cfg.configExpansion > fields.expansion then fields.expansion
         else cfg.configExpansion),
        fields.mutetime, LOCALE_enUS⟩ := by
  subst h3
  simp [handleAuthSession, h1, h2, h4, h5, h6]

/-- Witness for `oversized_locale_defaulted`: stored locale 200 with
`MAX_LOCALE = 12`; authentication succeeds and the session locale is
`LOCALE_enUS`. -/
theorem oversized_locale_defaulted_witness :
    (handleAuthSession (fun _ _ _ _ _ => [7]) ⟨[15595], 3, 0, 12⟩ "1.2.3.4" 0
      ⟨[7], 15595, 0, "A", []⟩
      (some ⟨1, 0, [], "", 0, "", "", 1, 0, 200⟩) false).verdict = true ∧
    (handleAuthSession (fun _ _ _ _ _ => [7]) ⟨[15595], 3, 0, 12⟩ "1.2.3.4" 0
      ⟨[7], 15595, 0, "A", []⟩
      (some ⟨1, 0, [], "", 0, "", "", 1, 0, 200⟩) false).session =
      some ⟨1, (if 0 > SEC_ADMINISTRATOR then SEC_ADMINISTRATOR else 0),
        (if 3 > 1 then 1 else 3), 0, LOCALE_enUS⟩ :=
  oversized_locale_defaulted (fun _ _ _ _ _ => [7]) ⟨[15595], 3, 0, 12⟩
    "1.2.3.4" 0 ⟨[7], 15595, 0, "A", []⟩ ⟨1, 0, [], "", 0, "", "", 1, 0, 200⟩
    false (by decide) (by decide) rfl (by decide) (by decide) (by decide)

end WorldSocketModel
